import Mathlib

/-!
Verification of `src/nuitka/nodes/BuiltinRangeNode.py`.

The file shallowly embeds the four range-builtin expression node classes
(`CPythonExpressionBuiltinRange0/1/2/3`) and the compile-time queries they
expose: `getIterationLength`, `getIterationValue`,
`canPredictIterationValues`, `isKnownToBeIterable`, `mayHaveSideEffects`
and `computeNode`.

Conventions of the embedding:
- The integer-fact oracle answer `child.getIntegerValue(constraint_collection)`
  for an operand is an `Option Int` (`none` = Python `None` = unknown).
- Python code paths that raise are embedded as `Except String`, the string
  being the exception class name; code that cannot raise keeps a plain type.
- `CPythonExpressionBuiltinRange3.getIterationLength` computes
  `math.ceil(float(high - low) / step)` with CPython floats.  IEEE-754
  double arithmetic is embedded exactly: a finite double is represented as
  a dyadic pair `(m, t)` of value `m * 2^t`, and conversion/division round
  to nearest, ties to even, with the subnormal grid at `2^(-1074)` and
  overflow at `2^1024`, all in exact integer arithmetic.
-/

/-- `log2Fuel fuel n` is `⌊log₂ n⌋` computed by repeated halving, with
explicit fuel so that the recursion is structural and kernel-reducible. -/
def log2Fuel : Nat → Nat → Nat
  | 0, _ => 0
  | fuel + 1, n => if 2 ≤ n then log2Fuel fuel (n / 2) + 1 else 0

/-- `⌊log₂ n⌋` for `n ≥ 1` (and `0` for `n = 0`). -/
def natLog2 (n : Nat) : Nat := log2Fuel n n

/-- `⌊log₂ (a / b)⌋` for positive naturals `a`, `b`: the candidate
`natLog2 a - natLog2 b` is exact or one too large, so it is corrected by
one exact comparison. -/
def fracLog2 (a b : Nat) : Int :=
  let e0 : Int := (natLog2 a : Int) - (natLog2 b : Int)
  if 0 ≤ e0 then (if b * 2 ^ e0.toNat ≤ a then e0 else e0 - 1)
  else (if b ≤ a * 2 ^ (-e0).toNat then e0 else e0 - 1)

/-- Round the fraction `a / b` (with `b > 0`) to the nearest integer,
ties to even.  `/` and `%` on `Int` are Euclidean, so for `b > 0` the
quotient is the floor and the remainder lies in `[0, b)`. -/
def roundHalfEvenFrac (a b : Int) : Int :=
  if 2 * (a % b) < b then a / b
  else if b < 2 * (a % b) then a / b + 1
  else if (a / b) % 2 = 0 then a / b else a / b + 1

/-- The exponent of the IEEE-754 rounding grid for a value of magnitude
`a / b`: `2^(e-52)` for magnitude exponent `e`, clamped below at the
subnormal step `2^(-1074)`. -/
def dblGridExp (a b : Nat) : Int := max (fracLog2 a b - 52) (-1074)

/-- Round the positive rational `a / b` to the IEEE-754 double grid
(round to nearest, ties to even), returning a dyadic pair `(m, t)` of
value `m * 2^t`: divide `a / b` by the grid step `2^t`, round to the
nearest integer (ties to even), keep the grid exponent. -/
def roundPosRat (a b : Nat) : Int × Int :=
  (if 0 ≤ dblGridExp a b then
    roundHalfEvenFrac (a : Int) ((b : Int) * 2 ^ (dblGridExp a b).toNat)
  else
    roundHalfEvenFrac ((a : Int) * 2 ^ (-dblGridExp a b).toNat) (b : Int),
  dblGridExp a b)

/-- The dyadic value `p.1 * 2^p.2` has magnitude at least `2^1024`, the
smallest magnitude that does not fit in an IEEE-754 double. -/
def dblOverflow (p : Int × Int) : Prop :=
  (0 ≤ p.2 ∧ 2 ^ 1024 ≤ p.1.natAbs * 2 ^ p.2.toNat) ∨
  (p.2 < 0 ∧ 2 ^ (1024 + (-p.2).toNat) ≤ p.1.natAbs)

instance (p : Int × Int) : Decidable (dblOverflow p) := by
  unfold dblOverflow; exact inferInstance

/-- The signed mantissa of the double nearest to the integer `n`: the
rounded magnitude mantissa, negated for negative `n`. -/
def pyFloatSigned (n : Int) : Int :=
  if n < 0 then -(roundPosRat n.natAbs 1).1 else (roundPosRat n.natAbs 1).1

/-- CPython `float(n)` for an arbitrary-precision integer `n`: round to
the nearest double (ties to even); raise `OverflowError` if the rounded
magnitude reaches `2^1024`. -/
def pyFloatOfInt (n : Int) : Except String (Int × Int) :=
  if n = 0 then Except.ok (0, 0)
  else if dblOverflow (pyFloatSigned n, (roundPosRat n.natAbs 1).2) then
    Except.error "OverflowError"
  else Except.ok (pyFloatSigned n, (roundPosRat n.natAbs 1).2)

/-- The rounded magnitude of the quotient of two finite doubles given as
dyadic pairs: align the two exponents onto the numerator or denominator
magnitude and round the resulting positive fraction to the double grid. -/
def pyFloatDivMag (f g : Int × Int) : Int × Int :=
  if 0 ≤ f.2 - g.2 then roundPosRat (f.1.natAbs * 2 ^ (f.2 - g.2).toNat) g.1.natAbs
  else roundPosRat f.1.natAbs (g.1.natAbs * 2 ^ (-(f.2 - g.2)).toNat)

/-- CPython float division `f / g` on finite doubles given as dyadic
pairs, `g ≠ 0`: the exact quotient is rounded to the nearest double,
ties to even; the sign follows the signs of the operands.  (For the
quotients arising in `getIterationLength` the divisor has magnitude at
least 1, so the quotient magnitude is at most the dividend magnitude and
the result cannot overflow.) -/
def pyFloatDiv (f g : Int × Int) : Int × Int :=
  if f.1 = 0 then (0, 0)
  else
    ((if (f.1 < 0 ↔ g.1 < 0) then (pyFloatDivMag f g).1 else -(pyFloatDivMag f g).1),
     (pyFloatDivMag f g).2)

/-- `math.ceil` of a finite double `m * 2^t`, as an integer.  (In Python 2
`math.ceil` returns an integral float; the source then applies `round`,
which is the identity on it, and `int`, which converts it exactly, so the
composition is the mathematical ceiling.) -/
def dblCeil (m t : Int) : Int :=
  if 0 ≤ t then m * 2 ^ t.toNat else -((-m) / 2 ^ (-t).toNat)

/-- Exception propagation: an `Except` value is passed on to the
continuation, an exception short-circuits past it. -/
def exceptBind {α β : Type} (x : Except String α) (f : α → Except String β) :
    Except String β :=
  match x with
  | Except.error e => Except.error e
  | Except.ok v => f v

/-- `math.ceil(float(a) / st)` exactly as CPython computes it
(`a = high - low`), including the two int-to-float conversions, the
float division and the ceiling.  The `ZeroDivisionError` branch is
unreachable from the caller, which only divides by nonzero `st`. -/
def ceilFloatDiv (a st : Int) : Except String Int :=
  exceptBind (pyFloatOfInt a) fun f =>
  exceptBind (pyFloatOfInt st) fun g =>
  if g.1 = 0 then Except.error "ZeroDivisionError"
  else Except.ok (dblCeil (pyFloatDiv f g).1 (pyFloatDiv f g).2)

/-- An operand sub-expression of a range node, as seen through the
analysis context: whether its own `mayHaveSideEffects` query answers
true, the integer-fact oracle's answer `getIntegerValue`, and whether the
stricter literal-constant check used by the folder accepts it. -/
structure Operand where
  mayHaveSideEffects : Bool
  integerValue : Option Int
  isCompileTimeConstant : Bool
deriving DecidableEq

/-- The concrete value an operand contributes to compile-time folding: a
literal constant carries its (integer) value, everything else does not. -/
def Operand.constantValue (o : Operand) : Option Int :=
  if o.isCompileTimeConstant then o.integerValue else none

/-- `CPythonExpressionBuiltinRangeBase.mayHaveSideEffects` (lines 74-83):
true as soon as some child may have side effects or some child's integer
fact is unknown; false only when the loop finishes without returning. -/
def rangeBaseMayHaveSideEffects (children : List Operand) : Bool :=
  children.any fun child => child.mayHaveSideEffects || child.integerValue.isNone

/-- `CPythonExpressionBuiltinRange0.mayHaveSideEffects` (lines 53-54):
unconditionally false. -/
def range0_mayHaveSideEffects : Bool := false

/-- `mayHaveSideEffects` of an Arity1 node: the inherited base method over
the visitable child `low`. -/
def range1_mayHaveSideEffects (low : Operand) : Bool :=
  rangeBaseMayHaveSideEffects [low]

/-- `mayHaveSideEffects` of an Arity2 node: the inherited base method over
the visitable children `low`, `high`. -/
def range2_mayHaveSideEffects (low high : Operand) : Bool :=
  rangeBaseMayHaveSideEffects [low, high]

/-- `mayHaveSideEffects` of an Arity3 node: the inherited base method over
the visitable children `low`, `high`, `step`. -/
def range3_mayHaveSideEffects (low high step : Operand) : Bool :=
  rangeBaseMayHaveSideEffects [low, high, step]

/-- Modelled from the spec: `CPythonExpressionBuiltinRange0` inherits no
`getIterationLength` override in the sources, and the spec states that
for Arity0 the length is always unknown to this subsystem. -/
def range0_getIterationLength : Option Int := none

/-- The outcome of `computeNode`: `(self, None, None)` is `unchanged`,
and a replacement by a constant node carries the computed value and the
human-readable reason tag. -/
inductive ComputeOutcome where
  | unchanged
  | folded (value : List Int) (description : String)
deriving DecidableEq

/-- `range(low, high, step)` for `step ≠ 0`, with explicit fuel; each
kept element advances `low` by `step` toward `high`, so `|high - low|`
steps of fuel suffice for `|step| ≥ 1`. -/
def rangeListAux : Nat → Int → Int → Int → List Int
  | 0, _, _, _ => []
  | fuel + 1, lo, hi, st =>
    if (0 < st ∧ lo < hi) ∨ (st < 0 ∧ hi < lo) then
      lo :: rangeListAux fuel (lo + st) hi st
    else []

/-- The value list of the Python 2 builtin `range(lo, hi, st)`, `st ≠ 0`. -/
def rangeList (lo hi st : Int) : List Int :=
  rangeListAux (hi - lo).natAbs lo hi st

/-- Modelled from the spec: `BuiltinOptimization.builtin_range_spec.simulateCall`
is not in the sources; per the spec it executes the builtin call against
the concrete operand values and signals a would-raise outcome (for range,
a zero step raises `ValueError`) instead of producing a value. -/
def simulateCallRange (args : List Int) : Except String (List Int) :=
  match args with
  | [lo] => Except.ok (rangeList 0 lo 1)
  | [lo, hi] => Except.ok (rangeList lo hi 1)
  | [lo, hi, st] =>
    if st = 0 then Except.error "ValueError" else Except.ok (rangeList lo hi st)
  | _ => Except.error "TypeError"

/-- Modelled from the spec:
`BuiltinOptimization.builtin_range_spec.isCompileTimeComputable` is not in
the sources; per the spec every operand must pass the stricter
literal-constant check for the tuple to qualify. -/
def isCompileTimeComputable (given_values : List Operand) : Bool :=
  given_values.all fun v => v.constantValue.isSome

/-- Modelled from the spec: `NodeMakingHelpers.getComputationResult` is
not in the sources; per the spec a successful simulation is packaged as a
replacement by a literal-constant node tagged with the description, and a
predicted-raise outcome must not fold to a constant. -/
def getComputationResult (computation : Except String (List Int))
    (description : String) : ComputeOutcome :=
  match computation with
  | Except.ok value => ComputeOutcome.folded value description
  | Except.error _ => ComputeOutcome.unchanged

/-- `CPythonExpressionBuiltinRange1.computeNode` (lines 104-118): give up
under Python 3, give up unless the operand tuple is compile-time
computable, otherwise fold through the simulated call. -/
def computeNode1 (python_version : Nat) (low : Operand) : ComputeOutcome :=
  if 300 ≤ python_version then ComputeOutcome.unchanged
  else if isCompileTimeComputable [low] = false then ComputeOutcome.unchanged
  else
    match low.constantValue with
    | some lo =>
      getComputationResult (simulateCallRange [lo]) "Builtin call to range precomputed."
    | none => ComputeOutcome.unchanged

/-- `CPythonExpressionBuiltinRange2.computeNode` via `computeBuiltinSpec`
(lines 171-190): identical shape with the two-operand tuple. -/
def computeNode2 (python_version : Nat) (low high : Operand) : ComputeOutcome :=
  if 300 ≤ python_version then ComputeOutcome.unchanged
  else if isCompileTimeComputable [low, high] = false then ComputeOutcome.unchanged
  else
    match low.constantValue, high.constantValue with
    | some lo, some hi =>
      getComputationResult (simulateCallRange [lo, hi]) "Builtin call to range precomputed."
    | _, _ => ComputeOutcome.unchanged

/-- `CPythonExpressionBuiltinRange3.computeNode` via `computeBuiltinSpec`
(lines 261-281): identical shape with the three-operand tuple. -/
def computeNode3 (python_version : Nat) (low high step : Operand) : ComputeOutcome :=
  if 300 ≤ python_version then ComputeOutcome.unchanged
  else if isCompileTimeComputable [low, high, step] = false then ComputeOutcome.unchanged
  else
    match low.constantValue, high.constantValue, step.constantValue with
    | some lo, some hi, some st =>
      getComputationResult (simulateCallRange [lo, hi, st]) "Builtin call to range precomputed."
    | _, _, _ => ComputeOutcome.unchanged

/-- `CPythonExpressionBuiltinRange1.getIterationLength` (lines 120-126):
`None` if the operand fact is unknown, else `max(0, low)`. -/
def range1_getIterationLength (low : Option Int) : Option Int :=
  match low with
  | none => none
  | some lo => some (max 0 lo)

/-- `CPythonExpressionBuiltinRange1.canPredictIterationValues`
(lines 128-129): the iteration length is not `None`. -/
def range1_canPredictIterationValues (low : Option Int) : Bool :=
  (range1_getIterationLength low).isSome

/-- `CPythonExpressionBuiltinRange1.getIterationValue` (lines 131-145):
unknown length gives `None`; an index strictly above the length gives
`None`; otherwise the predicted constant is the index itself. -/
def range1_getIterationValue (low : Option Int) (element_index : Int) : Option Int :=
  match range1_getIterationLength low with
  | none => none
  | some length => if length < element_index then none else some element_index

/-- `CPythonExpressionBuiltinRange1.isKnownToBeIterable` (lines 147-148):
`count is None or count == self.getIterationLength()`.  The right operand
of `or` calls `getIterationLength` without its required
`constraint_collection` argument, which raises `TypeError` in Python 2;
short-circuiting avoids this whenever `count` is `None`. -/
def range1_isKnownToBeIterable (low : Option Int) (count : Option Int) :
    Except String Bool :=
  match count with
  | none => Except.ok true
  | some _ => Except.error "TypeError"

/-- `CPythonExpressionBuiltinRange2.getIterationLength` (lines 192-206):
each unknown operand fact gives `None`, else `max(0, high - low)`. -/
def range2_getIterationLength (low high : Option Int) : Option Int :=
  match low with
  | none => none
  | some lo =>
  match high with
  | none => none
  | some hi => some (max 0 (hi - lo))

/-- `CPythonExpressionBuiltinRange2.canPredictIterationValues`
(lines 208-209). -/
def range2_canPredictIterationValues (low high : Option Int) : Bool :=
  (range2_getIterationLength low high).isSome

/-- `CPythonExpressionBuiltinRange2.getIterationValue` (lines 211-233):
unknown operand facts give `None`; the candidate `low + element_index` is
out of range exactly when it is `>= high`. -/
def range2_getIterationValue (low high : Option Int) (element_index : Int) :
    Option Int :=
  match low with
  | none => none
  | some lo =>
  match high with
  | none => none
  | some hi =>
    let result := lo + element_index
    if hi ≤ result then none else some result

/-- `CPythonExpressionBuiltinRange2.isKnownToBeIterable` (lines 235-236):
same shape as the Arity1 variant. -/
def range2_isKnownToBeIterable (low high : Option Int) (count : Option Int) :
    Except String Bool :=
  match count with
  | none => Except.ok true
  | some _ => Except.error "TypeError"

/-- The `estimate` computation of
`CPythonExpressionBuiltinRange3.getIterationLength` (lines 307-316) for
known facts and nonzero step: 0 on a direction/step mismatch, otherwise
`math.ceil(float(high - low) / step)` in CPython float arithmetic. -/
def range3_lengthEstimate (lo hi st : Int) : Except String Int :=
  if lo < hi then
    if st < 0 then Except.ok 0 else ceilFloatDiv (hi - lo) st
  else
    if 0 < st then Except.ok 0 else ceilFloatDiv (hi - lo) st

/-- `CPythonExpressionBuiltinRange3.getIterationLength` (lines 283-322):
unknown operand facts give `None`; a zero step gives `None` (the call
would raise `ValueError` at runtime); otherwise the float-based estimate,
guarded by `assert not estimate < 0` (lines 318-322; `round` and `int`
are the identity on the integral estimate). -/
def range3_getIterationLength (low high step : Option Int) :
    Except String (Option Int) :=
  match low with
  | none => Except.ok none
  | some lo =>
  match high with
  | none => Except.ok none
  | some hi =>
  match step with
  | none => Except.ok none
  | some st =>
  if st = 0 then Except.ok none
  else
    exceptBind (range3_lengthEstimate lo hi st) fun estimate =>
      if estimate < 0 then Except.error "AssertionError"
      else Except.ok (some estimate)

/-- `CPythonExpressionBuiltinRange3.canPredictIterationValues`
(lines 324-325): the iteration length is not `None` (an exception in the
length computation propagates). -/
def range3_canPredictIterationValues (low high step : Option Int) :
    Except String Bool :=
  exceptBind (range3_getIterationLength low high step) fun r =>
    Except.ok r.isSome

/-- `CPythonExpressionBuiltinRange3.getIterationValue` (lines 327-348):
unknown `low` or `high` facts give `None`, but the `step` fact is fetched
without a `None` check, so an unknown step reaches
`low + step * element_index` and raises `TypeError` (`None * int`).  The
candidate is out of range exactly when it is `>= high`, for either sign
of the step. -/
def range3_getIterationValue (low high step : Option Int) (element_index : Int) :
    Except String (Option Int) :=
  match low with
  | none => Except.ok none
  | some lo =>
  match high with
  | none => Except.ok none
  | some hi =>
  match step with
  | none => Except.error "TypeError"
  | some st =>
    let result := lo + st * element_index
    if hi ≤ result then Except.ok none else Except.ok (some result)

/-- `CPythonExpressionBuiltinRange3.isKnownToBeIterable` (lines 350-351):
same shape as the Arity1 variant. -/
def range3_isKnownToBeIterable (low high step : Option Int) (count : Option Int) :
    Except String Bool :=
  match count with
  | none => Except.ok true
  | some _ => Except.error "TypeError"

deriving instance DecidableEq for Except

/-! ### Sign lemmas for the float model -/

theorem exceptBind_error {α β : Type} (e : String) (f : α → Except String β) :
    exceptBind (Except.error e) f = Except.error e := rfl

theorem exceptBind_ok {α β : Type} (v : α) (f : α → Except String β) :
    exceptBind (Except.ok v) f = f v := rfl

theorem roundHalfEvenFrac_nonneg {a b : Int} (ha : 0 ≤ a) (hb : 0 ≤ b) :
    0 ≤ roundHalfEvenFrac a b := by
  have hn : 0 ≤ a / b := Int.ediv_nonneg ha hb
  unfold roundHalfEvenFrac
  split
  · exact hn
  · split
    · omega
    · split
      · exact hn
      · omega

theorem roundPosRat_fst_nonneg (a b : Nat) : 0 ≤ (roundPosRat a b).1 := by
  unfold roundPosRat
  simp only
  split
  · exact roundHalfEvenFrac_nonneg (Int.natCast_nonneg a)
      (mul_nonneg (Int.natCast_nonneg b) (by positivity))
  · exact roundHalfEvenFrac_nonneg
      (mul_nonneg (Int.natCast_nonneg a) (by positivity)) (Int.natCast_nonneg b)

theorem pyFloatSigned_nonneg {n : Int} (hn : 0 ≤ n) : 0 ≤ pyFloatSigned n := by
  unfold pyFloatSigned
  rw [if_neg (by omega)]
  exact roundPosRat_fst_nonneg _ _

theorem pyFloatSigned_nonpos {n : Int} (hn : n ≤ 0) : pyFloatSigned n ≤ 0 := by
  unfold pyFloatSigned
  rcases lt_or_eq_of_le hn with h | h
  · rw [if_pos h]
    have := roundPosRat_fst_nonneg n.natAbs 1
    omega
  · subst h
    rw [if_neg (by omega)]
    have : (0 : Int).natAbs = 0 := rfl
    rw [this]
    unfold roundPosRat
    simp only
    split
    · unfold roundHalfEvenFrac
      norm_num
    · unfold roundHalfEvenFrac
      norm_num

theorem pyFloatOfInt_ok_nonneg {n : Int} {p : Int × Int} (hn : 0 ≤ n)
    (h : pyFloatOfInt n = Except.ok p) : 0 ≤ p.1 := by
  unfold pyFloatOfInt at h
  split at h
  · injection h with h'
    subst h'
    exact le_refl 0
  · split at h
    · exact absurd h (by simp)
    · injection h with h'
      subst h'
      exact pyFloatSigned_nonneg hn

theorem pyFloatOfInt_ok_nonpos {n : Int} {p : Int × Int} (hn : n ≤ 0)
    (h : pyFloatOfInt n = Except.ok p) : p.1 ≤ 0 := by
  unfold pyFloatOfInt at h
  split at h
  · injection h with h'
    subst h'
    exact le_refl 0
  · split at h
    · exact absurd h (by simp)
    · injection h with h'
      subst h'
      exact pyFloatSigned_nonpos hn

theorem pyFloatOfInt_error_name {n : Int} {e : String}
    (h : pyFloatOfInt n = Except.error e) : e = "OverflowError" := by
  unfold pyFloatOfInt at h
  split at h
  · exact absurd h (by simp)
  · split at h
    · injection h with h'
      exact h'.symm
    · exact absurd h (by simp)

theorem pyFloatDivMag_fst_nonneg (f g : Int × Int) : 0 ≤ (pyFloatDivMag f g).1 := by
  unfold pyFloatDivMag
  split
  · exact roundPosRat_fst_nonneg _ _
  · exact roundPosRat_fst_nonneg _ _

theorem pyFloatDiv_fst_nonneg {f g : Int × Int}
    (h : (0 ≤ f.1 ∧ 0 < g.1) ∨ (f.1 ≤ 0 ∧ g.1 < 0)) : 0 ≤ (pyFloatDiv f g).1 := by
  unfold pyFloatDiv
  split
  · exact le_refl 0
  · rename_i hf0
    simp only
    rcases h with ⟨hf, hg⟩ | ⟨hf, hg⟩
    · rw [if_pos (iff_of_false (by omega) (by omega))]
      exact pyFloatDivMag_fst_nonneg f g
    · rw [if_pos (iff_of_true (by omega) hg)]
      exact pyFloatDivMag_fst_nonneg f g

theorem dblCeil_nonneg {m : Int} (t : Int) (hm : 0 ≤ m) : 0 ≤ dblCeil m t := by
  unfold dblCeil
  split
  · exact mul_nonneg hm (by positivity)
  · have h2 : (0:Int) < 2 ^ (-t).toNat := by positivity
    have hle : (-m) / 2 ^ (-t).toNat ≤ 0 / 2 ^ (-t).toNat :=
      Int.ediv_le_ediv h2 (by omega)
    rw [Int.zero_ediv] at hle
    omega

theorem ceilFloatDiv_ok_nonneg {a st n : Int}
    (h : (0 ≤ a ∧ 0 < st) ∨ (a ≤ 0 ∧ st < 0))
    (hok : ceilFloatDiv a st = Except.ok n) : 0 ≤ n := by
  unfold ceilFloatDiv at hok
  rcases hfa : pyFloatOfInt a with e | f
  · rw [hfa, exceptBind_error] at hok
    exact absurd hok (by simp)
  · rw [hfa, exceptBind_ok] at hok
    rcases hfs : pyFloatOfInt st with e | g
    · rw [hfs, exceptBind_error] at hok
      exact absurd hok (by simp)
    · rw [hfs, exceptBind_ok] at hok
      split at hok
      · exact absurd hok (by simp)
      · rename_i hg0
        injection hok with h'
        subst h'
        refine dblCeil_nonneg _ (pyFloatDiv_fst_nonneg ?_)
        rcases h with ⟨ha, hst⟩ | ⟨ha, hst⟩
        · have h1 := pyFloatOfInt_ok_nonneg ha hfa
          have h2 := pyFloatOfInt_ok_nonneg (le_of_lt hst) hfs
          exact Or.inl ⟨h1, by omega⟩
        · have h1 := pyFloatOfInt_ok_nonpos ha hfa
          have h2 := pyFloatOfInt_ok_nonpos (le_of_lt hst) hfs
          exact Or.inr ⟨h1, by omega⟩

theorem ceilFloatDiv_error_name {a st : Int} {e : String}
    (h : ceilFloatDiv a st = Except.error e) :
    e = "OverflowError" ∨ e = "ZeroDivisionError" := by
  unfold ceilFloatDiv at h
  rcases hfa : pyFloatOfInt a with e1 | f
  · rw [hfa, exceptBind_error] at h
    injection h with h'
    subst h'
    exact Or.inl (pyFloatOfInt_error_name hfa)
  · rw [hfa, exceptBind_ok] at h
    rcases hfs : pyFloatOfInt st with e2 | g
    · rw [hfs, exceptBind_error] at h
      injection h with h'
      subst h'
      exact Or.inl (pyFloatOfInt_error_name hfs)
    · rw [hfs, exceptBind_ok] at h
      split at h
      · injection h with h'
        exact Or.inr h'.symm
      · exact absurd h (by simp)

theorem range3_lengthEstimate_ok_nonneg {lo hi st n : Int} (hst : st ≠ 0)
    (h : range3_lengthEstimate lo hi st = Except.ok n) : 0 ≤ n := by
  unfold range3_lengthEstimate at h
  split at h
  · rename_i hlt
    split at h
    · injection h with h'
      omega
    · exact ceilFloatDiv_ok_nonneg (Or.inl ⟨by omega, by omega⟩) h
  · rename_i hge
    split at h
    · injection h with h'
      omega
    · exact ceilFloatDiv_ok_nonneg (Or.inr ⟨by omega, by omega⟩) h

theorem range3_lengthEstimate_error_name {lo hi st : Int} {e : String}
    (h : range3_lengthEstimate lo hi st = Except.error e) :
    e = "OverflowError" ∨ e = "ZeroDivisionError" := by
  unfold range3_lengthEstimate at h
  split at h
  · split at h
    · exact absurd h (by simp)
    · exact ceilFloatDiv_error_name h
  · split at h
    · exact absurd h (by simp)
    · exact ceilFloatDiv_error_name h

/-! ### Claim theorems -/

/-- Claim C1: the claim states that an Arity1 node with known fact `low`
predicts value `index` for `index < max(0, low)` and answers out of range
for every `index ≥ max(0, low)`, so that for `Arity1(5)` index 5 is out
of range.  The source compares `element_index > length`, so at the bound
`index = max(0, low)` it wrongly predicts the value `index` instead of
out of range: `Arity1(5)` yields the constant 5 at index 5, although the
equivalent `Arity2(0, 5)` node answers out of range there and Python's
`range(5)[5]` raises `IndexError`. -/
theorem range1_iteration_value_at_bound :
    range1_getIterationLength (some 5) = some 5 ∧
    range1_getIterationValue (some 5) 0 = some 0 ∧
    range1_getIterationValue (some 5) 4 = some 4 ∧
    range1_getIterationValue (some 5) 5 = some 5 ∧
    range1_getIterationValue (some 5) 6 = none ∧
    range2_getIterationValue (some 0) (some 5) 5 = none := by decide

set_option maxRecDepth 100000 in
/-- Claim C2: the claim states that `Arity3(10, 0, -2)` has length 5 and
predicts the values 10, 8, 6, 4, 2 at indices 0..4.  The length is
indeed 5, but the source's validity test `result >= high` is written for
ascending ranges only: for the descending range every candidate value is
`≥ high = 0`, so all five indices answer out of range (`None`) instead of
the claimed values, contradicting `canPredictIterationValues = true`. -/
theorem range3_descending_range_eval :
    range3_getIterationLength (some 10) (some 0) (some (-2)) = Except.ok (some 5) ∧
    range3_getIterationValue (some 10) (some 0) (some (-2)) 0 = Except.ok none ∧
    range3_getIterationValue (some 10) (some 0) (some (-2)) 1 = Except.ok none ∧
    range3_getIterationValue (some 10) (some 0) (some (-2)) 2 = Except.ok none ∧
    range3_getIterationValue (some 10) (some 0) (some (-2)) 3 = Except.ok none ∧
    range3_getIterationValue (some 10) (some 0) (some (-2)) 4 = Except.ok none := by decide

/-- Claim C3: the claim states that for a known zero step both
`getIterationLength` and every `getIterationValue` are unknown and
`computeNode` never folds to a constant.  The length is indeed unknown
and `computeNode` does not fold (the simulated call signals `ValueError`),
but `getIterationValue` has no zero-step guard: for `Arity3(0, 10, 0)`
every index predicts the constant 0, although the runtime call raises. -/
theorem range3_zero_step_eval :
    range3_getIterationLength (some 0) (some 10) (some 0) = Except.ok none ∧
    range3_getIterationValue (some 0) (some 10) (some 0) 0 = Except.ok (some 0) ∧
    range3_getIterationValue (some 0) (some 10) (some 0) 7 = Except.ok (some 0) ∧
    computeNode3 0 (Operand.mk false (some 0) true) (Operand.mk false (some 10) true)
      (Operand.mk false (some 0) true) = ComputeOutcome.unchanged := by decide

/-- Claim C4: the claim states that for every variant an unknown operand
fact makes `getIterationValue` answer unknown and never raise.  Arity1
and Arity2 check every fact for `None` and are total, and Arity3 checks
`low` and `high`, but fetches the `step` fact without a `None` check: with
known `low` and `high` and unknown `step` the expression
`low + step * element_index` multiplies `None` by an integer and raises
`TypeError` instead of answering unknown. -/
theorem range3_unknown_step_eval :
    range1_getIterationValue none 0 = none ∧
    range2_getIterationValue (some 3) none 0 = none ∧
    range3_getIterationValue none (some 10) none 0 = Except.ok none ∧
    range3_getIterationValue (some 0) none none 0 = Except.ok none ∧
    range3_getIterationValue (some 0) (some 10) none 0 = Except.error "TypeError" := by decide

set_option maxRecDepth 100000 in
/-- Claim C5: the claim states that for matching direction the Arity3
length is the exact rational ceiling of `(high - low) / step` for all
magnitudes.  The source computes `math.ceil(float(high - low) / step)`
in double precision: for `low = 0`, `high = 2^53 + 1`, `step = 1` the
conversion `float(2^53 + 1)` rounds (ties to even) down to `2^53`, so the
code returns `9007199254740992` although the exact ceiling is
`9007199254740993`. -/
theorem range3_float_precision_eval :
    range3_getIterationLength (some 0) (some 9007199254740993) (some 1) =
      Except.ok (some 9007199254740992) := by decide

/-- Claim C6: whenever `getIterationLength` answers a known value, for any
variant and any combination of known operand facts, that value is a
non-negative integer; for Arity3 a direction/step mismatch
(`low < high` with negative step, or `low ≥ high` with positive step)
answers exactly 0; the internal `assert not estimate < 0` never fires
(the only errors the Arity3 length can raise are the float conversion
`OverflowError` and the unreachable `ZeroDivisionError`); and the Arity0
variant has no known length at all. -/
theorem iteration_length_nonneg :
    (∀ (low : Option Int) (n : Int), range1_getIterationLength low = some n → 0 ≤ n) ∧
    (∀ (low high : Option Int) (n : Int),
      range2_getIterationLength low high = some n → 0 ≤ n) ∧
    (∀ (low high step : Option Int) (n : Int),
      range3_getIterationLength low high step = Except.ok (some n) → 0 ≤ n) ∧
    (∀ lo hi st : Int, (lo < hi ∧ st < 0) ∨ (hi ≤ lo ∧ 0 < st) →
      range3_getIterationLength (some lo) (some hi) (some st) = Except.ok (some 0)) ∧
    (∀ low high step : Option Int,
      range3_getIterationLength low high step ≠ Except.error "AssertionError") ∧
    range0_getIterationLength = none := by
  refine ⟨?_, ?_, ?_, ?_, ?_, rfl⟩
  · intro low n h
    cases low with
    | none => exact absurd h (by simp [range1_getIterationLength])
    | some lo =>
      simp only [range1_getIterationLength, Option.some.injEq] at h
      omega
  · intro low high n h
    cases low with
    | none => exact absurd h (by simp [range2_getIterationLength])
    | some lo =>
      cases high with
      | none => exact absurd h (by simp [range2_getIterationLength])
      | some hi =>
        simp only [range2_getIterationLength, Option.some.injEq] at h
        omega
  · intro low high step n h
    cases low with
    | none => exact absurd h (by simp [range3_getIterationLength])
    | some lo =>
    cases high with
    | none => exact absurd h (by simp [range3_getIterationLength])
    | some hi =>
    cases step with
    | none => exact absurd h (by simp [range3_getIterationLength])
    | some st =>
      simp only [range3_getIterationLength] at h
      split at h
      · simp at h
      · rename_i hst
        rcases hE : range3_lengthEstimate lo hi st with e | est
        · rw [hE, exceptBind_error] at h
          exact absurd h (by simp)
        · rw [hE, exceptBind_ok] at h
          split at h
          · exact absurd h (by simp)
          · simp only [Except.ok.injEq, Option.some.injEq] at h
            subst h
            exact range3_lengthEstimate_ok_nonneg hst hE
  · intro lo hi st h
    have hst : st ≠ 0 := by rcases h with ⟨_, h2⟩ | ⟨_, h2⟩ <;> omega
    have hE : range3_lengthEstimate lo hi st = Except.ok 0 := by
      unfold range3_lengthEstimate
      rcases h with ⟨h1, h2⟩ | ⟨h1, h2⟩
      · rw [if_pos h1, if_pos h2]
      · rw [if_neg (by omega), if_pos h2]
    simp only [range3_getIterationLength]
    rw [if_neg hst, hE, exceptBind_ok, if_neg (by omega)]
  · intro low high step h
    cases low with
    | none => exact absurd h (by simp [range3_getIterationLength])
    | some lo =>
    cases high with
    | none => exact absurd h (by simp [range3_getIterationLength])
    | some hi =>
    cases step with
    | none => exact absurd h (by simp [range3_getIterationLength])
    | some st =>
      simp only [range3_getIterationLength] at h
      split at h
      · simp at h
      · rename_i hst
        rcases hE : range3_lengthEstimate lo hi st with e | est
        · rw [hE, exceptBind_error] at h
          have := range3_lengthEstimate_error_name hE
          simp only [Except.error.injEq] at h
          rcases this with h' | h' <;> subst h' <;> exact absurd h (by decide)
        · rw [hE, exceptBind_ok] at h
          split at h
          · rename_i hneg
            have := range3_lengthEstimate_ok_nonneg hst hE
            omega
          · exact absurd h (by simp)

/-- Claim C6, witness: `Arity1(3)` has the known non-negative length 3. -/
theorem iteration_length_nonneg_witness :
    range1_getIterationLength (some 3) = some 3 ∧ (0 : Int) ≤ 3 :=
  ⟨by decide, iteration_length_nonneg.1 (some 3) 3 (by decide)⟩

/-- Claim C7: `mayHaveSideEffects` answers false for an Arity1/2/3 node
exactly when every operand is itself free of side effects and has a known
integer fact — it answers true as soon as some operand may have side
effects or some operand's fact is unknown — and for Arity0 it answers
false unconditionally. -/
theorem mayHaveSideEffects_characterization :
    (∀ low : Operand, range1_mayHaveSideEffects low = false ↔
      (low.mayHaveSideEffects = false ∧ low.integerValue.isSome = true)) ∧
    (∀ low high : Operand, range2_mayHaveSideEffects low high = false ↔
      (low.mayHaveSideEffects = false ∧ low.integerValue.isSome = true ∧
       high.mayHaveSideEffects = false ∧ high.integerValue.isSome = true)) ∧
    (∀ low high step : Operand, range3_mayHaveSideEffects low high step = false ↔
      (low.mayHaveSideEffects = false ∧ low.integerValue.isSome = true ∧
       high.mayHaveSideEffects = false ∧ high.integerValue.isSome = true ∧
       step.mayHaveSideEffects = false ∧ step.integerValue.isSome = true)) ∧
    range0_mayHaveSideEffects = false := by
  refine ⟨?_, ?_, ?_, rfl⟩
  · intro low
    obtain ⟨se, iv, cc⟩ := low
    cases se <;> cases iv <;>
      simp [range1_mayHaveSideEffects, rangeBaseMayHaveSideEffects]
  · intro low high
    obtain ⟨se1, iv1, cc1⟩ := low
    obtain ⟨se2, iv2, cc2⟩ := high
    cases se1 <;> cases iv1 <;> cases se2 <;> cases iv2 <;>
      simp [range2_mayHaveSideEffects, rangeBaseMayHaveSideEffects]
  · intro low high step
    obtain ⟨se1, iv1, cc1⟩ := low
    obtain ⟨se2, iv2, cc2⟩ := high
    obtain ⟨se3, iv3, cc3⟩ := step
    cases se1 <;> cases iv1 <;> cases se2 <;> cases iv2 <;> cases se3 <;> cases iv3 <;>
      simp [range3_mayHaveSideEffects, rangeBaseMayHaveSideEffects]

/-- Claim C7, witness: an effect-free operand with a known integer fact
makes the Arity1 node effect-free. -/
theorem mayHaveSideEffects_characterization_witness :
    range1_mayHaveSideEffects (Operand.mk false (some 3) false) = false :=
  (mayHaveSideEffects_characterization.1 (Operand.mk false (some 3) false)).mpr
    (by decide)

/-- Claim C8: `computeNode` is idempotent on unfoldable nodes.  Whenever
folding is disabled by configuration (`python_version >= 300`) or the
operand tuple fails the compile-time-computable check, `computeNode` of
each of Arity1/2/3 answers `(self, None, None)` — no replacement and no
reason tag.  Because that answer returns the node itself and the analysis
context is unchanged, a second call is the very same application of
`computeNode` to the same arguments, so it answers unchanged again. -/
theorem computeNode_unfoldable_unchanged (python_version : Nat) (low high step : Operand)
    (h1 : 300 ≤ python_version ∨ isCompileTimeComputable [low] = false)
    (h2 : 300 ≤ python_version ∨ isCompileTimeComputable [low, high] = false)
    (h3 : 300 ≤ python_version ∨ isCompileTimeComputable [low, high, step] = false) :
    computeNode1 python_version low = ComputeOutcome.unchanged ∧
    computeNode2 python_version low high = ComputeOutcome.unchanged ∧
    computeNode3 python_version low high step = ComputeOutcome.unchanged := by
  by_cases hpv : 300 ≤ python_version
  · refine ⟨?_, ?_, ?_⟩ <;> simp only [computeNode1, computeNode2, computeNode3, if_pos hpv]
  · refine ⟨?_, ?_, ?_⟩
    · rcases h1 with h | h
      · exact absurd h hpv
      · simp only [computeNode1, if_neg hpv, h, if_pos]
    · rcases h2 with h | h
      · exact absurd h hpv
      · simp only [computeNode2, if_neg hpv, h, if_pos]
    · rcases h3 with h | h
      · exact absurd h hpv
      · simp only [computeNode3, if_neg hpv, h, if_pos]

/-- Claim C8, witness: a non-literal operand leaves all three variants
unchanged under Python 2 configuration. -/
theorem computeNode_unfoldable_unchanged_witness :
    (isCompileTimeComputable [Operand.mk false none false] = false) ∧
    computeNode1 0 (Operand.mk false none false) = ComputeOutcome.unchanged ∧
    computeNode2 0 (Operand.mk false none false) (Operand.mk false none false) =
      ComputeOutcome.unchanged ∧
    computeNode3 0 (Operand.mk false none false) (Operand.mk false none false)
      (Operand.mk false none false) = ComputeOutcome.unchanged :=
  ⟨by decide,
   computeNode_unfoldable_unchanged 0 (Operand.mk false none false)
     (Operand.mk false none false) (Operand.mk false none false)
     (Or.inr (by decide)) (Or.inr (by decide)) (Or.inr (by decide))⟩

/-- Claim C9: for each of Arity1, Arity2 and Arity3 and any operand
facts, `canPredictIterationValues` answers true exactly when
`getIterationLength` answers a known (non-`None`) value. -/
theorem canPredict_iff_known_length :
    (∀ low : Option Int, range1_canPredictIterationValues low = true ↔
      ∃ n, range1_getIterationLength low = some n) ∧
    (∀ low high : Option Int, range2_canPredictIterationValues low high = true ↔
      ∃ n, range2_getIterationLength low high = some n) ∧
    (∀ low high step : Option Int,
      range3_canPredictIterationValues low high step = Except.ok true ↔
      ∃ n, range3_getIterationLength low high step = Except.ok (some n)) := by
  refine ⟨?_, ?_, ?_⟩
  · intro low
    simp [range1_canPredictIterationValues, Option.isSome_iff_exists]
  · intro low high
    simp [range2_canPredictIterationValues, Option.isSome_iff_exists]
  · intro low high step
    unfold range3_canPredictIterationValues
    rcases hE : range3_getIterationLength low high step with e | r
    · rw [exceptBind_error]
      simp
    · rw [exceptBind_ok]
      cases r <;> simp

/-- Claim C9, witness: `Arity1(4)` has a known length, so its values are
predictable. -/
theorem canPredict_iff_known_length_witness :
    range1_canPredictIterationValues (some 4) = true :=
  (canPredict_iff_known_length.1 (some 4)).mpr ⟨4, by decide⟩

/-- Claim C10: for every Arity1/2/3 node, `isKnownToBeIterable` with an
absent count answers true by short-circuiting, for all operand facts —
it never consults them (the other disjunct would even raise `TypeError`,
since it calls `getIterationLength` without its required argument). -/
theorem isKnownToBeIterable_none_count :
    (∀ low : Option Int, range1_isKnownToBeIterable low none = Except.ok true) ∧
    (∀ low high : Option Int, range2_isKnownToBeIterable low high none = Except.ok true) ∧
    (∀ low high step : Option Int,
      range3_isKnownToBeIterable low high step none = Except.ok true) :=
  ⟨fun _ => rfl, fun _ _ => rfl, fun _ _ _ => rfl⟩
